import Mathlib

/-!
Verification of the in-process CQRS mediator embedded in the generated
projects of this repository
(src/templates/layered/app/application/common/cqrs.py and
src/templates/layered/app/application/common/models/result_model.py).

The embedding models Python's dynamically typed values with the inductive
`PyVal`: a `Result` dataclass instance is `PyVal.res success value error`
(mirroring the three dataclass fields), a coroutine object is `coroOk v`
(awaiting yields `v`) or `coroErr e` (awaiting raises an exception whose
text is `e`), and plain non-Result values are `nat`, `str` and `list`.
Raising a Python exception is modelled with `Except String`, the carried
string being `str(exc)`.  A message's runtime type is its dispatch key;
since `type(command)` is used as the dictionary key and
`type(command).__name__` in error text, a message carries its type name
`ty` as the key.  Python dictionaries are modelled by association lists
with in-place overwrite on assignment (`Dict.set`) and first-match lookup
(`Dict.get`), which coincides with dict semantics because keys stay unique.
-/

namespace Cqrs

/-- A Python runtime value as seen by the mediator. -/
inductive PyVal where
  | res (success : Bool) (value : Option PyVal) (error : Option String) : PyVal
  | coroOk (v : PyVal) : PyVal
  | coroErr (e : String) : PyVal
  | nat (n : Nat) : PyVal
  | str (s : String) : PyVal
  | list (xs : List PyVal) : PyVal

/-- Classmethod `Result.ok(value)`: `cls(True, value=value)`. -/
def Result.ok (value : Option PyVal) : PyVal :=
  PyVal.res true value none

/-- Classmethod `Result.fail(error)`: `cls(False, error=error)`. -/
def Result.fail (error : String) : PyVal :=
  PyVal.res false none (some error)

/-- Python `isinstance(v, Result)`. -/
def isResult : PyVal → Bool
  | .res _ _ _ => true
  | _ => false

/-- Python `inspect.iscoroutine(v)`. -/
def isCoroutine : PyVal → Bool
  | .coroOk _ => true
  | .coroErr _ => true
  | _ => false

/-- The `Result` invariant of the spec: a `Fail` carries no value and an
`Ok` carries no error string (and the value is a `Result` at all). -/
def isWellFormed : PyVal → Bool
  | .res true _ err => err.isNone
  | .res false value _ => value.isNone
  | _ => false

/-- A message (command or query instance): its runtime type name is the
dispatch key, the payload is the data it carries. -/
structure Msg where
  ty : String
  payload : PyVal

/-- A handler: a callable from the message to any value; it may raise. -/
def Handler : Type := Msg → Except String PyVal

/-- A pipeline behavior: receives the continuation `next_` and the
message, produces any value, may raise. -/
def Behavior : Type := (Msg → Except String PyVal) → Msg → Except String PyVal

/-- A Python dict keyed by message type. -/
def Dict (α : Type) : Type := List (String × α)

/-- Lookup `d.get(k)`: `None` when the key is absent. -/
def Dict.get {α : Type} : Dict α → String → Option α
  | [], _ => none
  | (k', v) :: rest, k => if k' = k then some v else Dict.get rest k

/-- Assignment `d[k] = v`: overwrite in place when the key exists, append otherwise. -/
def Dict.set {α : Type} : Dict α → String → α → Dict α
  | [], k, v => [(k, v)]
  | (k', v') :: rest, k, v =>
      if k' = k then (k, v) :: rest else (k', v') :: Dict.set rest k v

/-- Mediator state: the two handler registries and the behavior list. -/
structure Mediator where
  command_handlers : Dict Handler
  query_handlers : Dict Handler
  behaviors : List Behavior

/-- Constructor `Mediator.__init__`: both registries empty, no behaviors. -/
def Mediator.init : Mediator :=
  ⟨[], [], []⟩

/-- Method `register_command(t, handler)`: `self._command_handlers[t] = handler`. -/
def Mediator.register_command (m : Mediator) (t : String) (handler : Handler) :
    Mediator :=
  { m with command_handlers := m.command_handlers.set t handler }

/-- Method `register_query(t, handler)`: `self._query_handlers[t] = handler`. -/
def Mediator.register_query (m : Mediator) (t : String) (handler : Handler) :
    Mediator :=
  { m with query_handlers := m.query_handlers.set t handler }

/-- Method `add_behavior(behavior)`: `self._behaviors.append(behavior)`. -/
def Mediator.add_behavior (m : Mediator) (behavior : Behavior) : Mediator :=
  { m with behaviors := m.behaviors ++ [behavior] }

/-- Local function `_invoke.call_chain`: `call_chain(index, msg)` returns `handler(msg)`
when `index == len(self._behaviors)`, else
`self._behaviors[index](lambda m: call_chain(index + 1, m), msg)`;
the index into the list is rendered as structural recursion on the suffix
of the behavior list starting at `index`. -/
def call_chain (handler : Handler) : List Behavior → Msg → Except String PyVal
  | [], msg => handler msg
  | b :: rest, msg => b (fun m => call_chain handler rest m) msg

/-- Method `_invoke(message, handler)`: run the chain from index 0; any
exception is caught, logged and converted to `Result.fail(str(exc))`. -/
def Mediator.invoke (m : Mediator) (message : Msg) (handler : Handler) : PyVal :=
  match call_chain handler m.behaviors message with
  | .ok result => result
  | .error exc => Result.fail exc

/-- Method `send(command)`: look up the handler by the command's runtime
type; absent means `Result.fail(...)`; otherwise `_invoke` and wrap a
non-Result in `Result.ok`. -/
def Mediator.send (m : Mediator) (command : Msg) : PyVal :=
  match m.command_handlers.get command.ty with
  | none => Result.fail ("No handler registered for command " ++ command.ty)
  | some handler =>
      let res := m.invoke command handler
      if isResult res then res else Result.ok (some res)

/-- Method `ask(query)`: as `send` against the query registry. -/
def Mediator.ask (m : Mediator) (query : Msg) : PyVal :=
  match m.query_handlers.get query.ty with
  | none => Result.fail ("No handler registered for query " ++ query.ty)
  | some handler =>
      let res := m.invoke query handler
      if isResult res then res else Result.ok (some res)

/-- Statement `if inspect.iscoroutine(res): res = await res` — awaiting a
coroutine yields its value or raises; the exception is NOT caught at this
point. -/
def awaitIfCoro : PyVal → Except String PyVal
  | .coroOk v => .ok v
  | .coroErr e => .error e
  | v => .ok v

/-- Method `send_async(command)`: as `send`, but a coroutine produced by
`_invoke` is awaited before the Result wrap; an exception raised by that
await escapes, hence the `Except` return type. -/
def Mediator.send_async (m : Mediator) (command : Msg) :
    Except String PyVal :=
  match m.command_handlers.get command.ty with
  | none =>
      .ok (Result.fail ("No handler registered for command " ++ command.ty))
  | some handler =>
      match awaitIfCoro (m.invoke command handler) with
      | .error e => .error e
      | .ok res => .ok (if isResult res then res else Result.ok (some res))

/-- Method `ask_async(query)`: as `send_async` against the query registry. -/
def Mediator.ask_async (m : Mediator) (query : Msg) :
    Except String PyVal :=
  match m.query_handlers.get query.ty with
  | none =>
      .ok (Result.fail ("No handler registered for query " ++ query.ty))
  | some handler =>
      match awaitIfCoro (m.invoke query handler) with
      | .error e => .error e
      | .ok res => .ok (if isResult res then res else Result.ok (some res))

/-- The default `_logging_behavior`: logs (a side effect outside the
model) and forwards the message to the continuation unchanged. -/
def logging_behavior : Behavior := fun next_ message => next_ message

/-!
State-passing renderings of the four dispatch methods.  The Python
methods live on a mutable object, so each is also translated as an
explicit state transformer returning the produced value together with
the mediator state after the call; the bodies thread the state through
each statement of the source, none of which assigns to `self`.
-/

/-- Method `send` as an explicit state transformer. -/
def Mediator.send_st (m : Mediator) (command : Msg) : PyVal × Mediator :=
  match m.command_handlers.get command.ty with
  | none =>
      (Result.fail ("No handler registered for command " ++ command.ty), m)
  | some handler =>
      let res := m.invoke command handler
      ((if isResult res then res else Result.ok (some res)), m)

/-- Method `ask` as an explicit state transformer. -/
def Mediator.ask_st (m : Mediator) (query : Msg) : PyVal × Mediator :=
  match m.query_handlers.get query.ty with
  | none =>
      (Result.fail ("No handler registered for query " ++ query.ty), m)
  | some handler =>
      let res := m.invoke query handler
      ((if isResult res then res else Result.ok (some res)), m)

/-- Method `send_async` as an explicit state transformer. -/
def Mediator.send_async_st (m : Mediator) (command : Msg) :
    Except String PyVal × Mediator :=
  match m.command_handlers.get command.ty with
  | none =>
      (.ok (Result.fail ("No handler registered for command " ++ command.ty)), m)
  | some handler =>
      match awaitIfCoro (m.invoke command handler) with
      | .error e => (.error e, m)
      | .ok res =>
          (.ok (if isResult res then res else Result.ok (some res)), m)

/-- Method `ask_async` as an explicit state transformer. -/
def Mediator.ask_async_st (m : Mediator) (query : Msg) :
    Except String PyVal × Mediator :=
  match m.query_handlers.get query.ty with
  | none =>
      (.ok (Result.fail ("No handler registered for query " ++ query.ty)), m)
  | some handler =>
      match awaitIfCoro (m.invoke query handler) with
      | .error e => (.error e, m)
      | .ok res =>
          (.ok (if isResult res then res else Result.ok (some res)), m)

/-!
Concrete handlers, behaviors and mediator states used to evaluate the
dispatch pipeline on explicit inputs.
-/

/-- An async handler: calling it returns (without raising) a coroutine
that raises an exception with text "boom" when awaited. -/
def asyncFailingHandler : Handler := fun _ => .ok (.coroErr "boom")

/-- A mediator with only `asyncFailingHandler` registered, for `CreateItem`. -/
def asyncFailMediator : Mediator :=
  Mediator.init.register_command "CreateItem" asyncFailingHandler

/-- A `CreateItem` command instance. -/
def createItemCmd : Msg := ⟨"CreateItem", .nat 0⟩

/-- Append an event to a trace carried as a list payload. -/
def pushEvent : PyVal → String → PyVal
  | .list xs, e => .list (xs ++ [.str e])
  | v, _ => v

/-- A behavior that records a pre-event on the message it forwards and a
post-event on the value it returns. -/
def traceBehavior (name : String) : Behavior := fun next_ msg =>
  match next_ { msg with payload := pushEvent msg.payload (name ++ ".pre") } with
  | .ok v => .ok (pushEvent v (name ++ ".post"))
  | .error e => .error e

/-- A handler that records a "handler" event on the message payload. -/
def traceHandler : Handler := fun msg => .ok (pushEvent msg.payload "handler")

/-- A mediator with the trace handler and behaviors B1 then B2 registered
in that order. -/
def traceMediator : Mediator :=
  ((Mediator.init.register_command "TCmd" traceHandler).add_behavior
      (traceBehavior "B1")).add_behavior (traceBehavior "B2")

/-- A `TCmd` command with an empty trace payload. -/
def traceCmd : Msg := ⟨"TCmd", .list []⟩

/-- A handler that explicitly returns `Result.fail("NOT_FOUND")`. -/
def notFoundHandler : Handler := fun _ => .ok (Result.fail "NOT_FOUND")

/-- A mediator with `notFoundHandler` registered as query handler. -/
def notFoundMediator : Mediator :=
  Mediator.init.register_query "GetItem" notFoundHandler

/-- A `GetItem` query instance. -/
def getItemQuery : Msg := ⟨"GetItem", .nat 1⟩

/-- A `DeleteItem` command instance (never registered anywhere). -/
def deleteItemCmd : Msg := ⟨"DeleteItem", .nat 1⟩

/-- A handler that always raises an exception with text "kaput". -/
def raisingHandler : Handler := fun _ => .error "kaput"

/-- A mediator with `raisingHandler` registered for `Explode` commands. -/
def raisingMediator : Mediator :=
  Mediator.init.register_command "Explode" raisingHandler

/-- An `Explode` command instance. -/
def explodeCmd : Msg := ⟨"Explode", .nat 0⟩

/-- A behavior that short-circuits: it never calls its continuation and
returns the plain value 7. -/
def shortCircuitBehavior : Behavior := fun _ _ => .ok (.nat 7)

/-- A handler returning the plain value 99 (should never run). -/
def scHandler : Handler := fun _ => .ok (.nat 99)

/-- A mediator with `scHandler` registered and the short-circuiting
behavior installed. -/
def scMediator : Mediator :=
  (Mediator.init.register_command "SC" scHandler).add_behavior
    shortCircuitBehavior

/-- An `SC` command instance. -/
def scCmd : Msg := ⟨"SC", .nat 0⟩

/-- A plain synchronous handler returning the value 5. -/
def plainHandler : Handler := fun _ => .ok (.nat 5)

/-- A mediator with `plainHandler` registered for `MakeItem` commands. -/
def plainMediator : Mediator :=
  Mediator.init.register_command "MakeItem" plainHandler

/-- A `MakeItem` command instance. -/
def makeItemCmd : Msg := ⟨"MakeItem", .str "hello"⟩

/-- A partially populated Result, as permitted by the dataclass
constructor `Result(True, value=1, error="weird")`: success with an
error string. -/
def malformedResult : PyVal := .res true (some (.nat 1)) (some "weird")

/-- A handler returning `malformedResult`. -/
def malformedHandler : Handler := fun _ => .ok malformedResult

/-- A mediator with `malformedHandler` registered for `Mal` commands. -/
def malformedMediator : Mediator :=
  Mediator.init.register_command "Mal" malformedHandler

/-- A `Mal` command instance. -/
def malCmd : Msg := ⟨"Mal", .nat 0⟩

/-- A handler returning a well-formed `Result.ok` explicitly. -/
def wfHandler : Handler := fun _ => .ok (Result.ok (some (.nat 5)))

/-- A mediator with `wfHandler` registered for `WF` commands. -/
def wfMediator : Mediator := Mediator.init.register_command "WF" wfHandler

/-- A `WF` command instance. -/
def wfCmd : Msg := ⟨"WF", .nat 0⟩

/-!
Helper lemmas about the dictionary operations and the behavior chain.
-/

/-- Looking up the key just assigned yields the assigned value. -/
theorem dict_get_set_self {α : Type} (k : String) (v : α) :
    ∀ d : List (String × α), Dict.get (Dict.set d k v) k = some v := by
  intro d
  induction d with
  | nil => simp [Dict.set, Dict.get]
  | cons p rest ih =>
      obtain ⟨k', v'⟩ := p
      by_cases hk : k' = k
      · simp [Dict.set, Dict.get, hk]
      · simp [Dict.set, Dict.get, hk, ih]

/-- Looking up any other key is unaffected by an assignment. -/
theorem dict_get_set_ne {α : Type} (k t : String) (v : α) (hk : k ≠ t) :
    ∀ d : List (String × α), Dict.get (Dict.set d t v) k = Dict.get d k := by
  have htk : ¬t = k := fun h => hk h.symm
  intro d
  induction d with
  | nil => simp [Dict.set, Dict.get, htk]
  | cons p rest ih =>
      obtain ⟨k', v'⟩ := p
      by_cases hkt : k' = t
      · subst hkt
        simp [Dict.set, Dict.get, htk]
      · simp [Dict.set, Dict.get, hkt, ih]

/-- Two successive assignments to the same key collapse to the second. -/
theorem dict_set_set {α : Type} (k : String) (v1 v2 : α) :
    ∀ d : List (String × α), Dict.set (Dict.set d k v1) k v2 = Dict.set d k v2 := by
  intro d
  induction d with
  | nil => simp [Dict.set]
  | cons p rest ih =>
      obtain ⟨k', v'⟩ := p
      by_cases hk : k' = k
      · simp [Dict.set, hk]
      · simp [Dict.set, hk, ih]

/-- Running the chain over an appended behavior list equals running the
first part with the second part folded into the terminal handler: each
stage recurses into the next, and the suffix behaves as one handler. -/
theorem call_chain_append (handler : Handler) (bs1 bs2 : List Behavior) :
    ∀ msg, call_chain handler (bs1 ++ bs2) msg
      = call_chain (fun m => call_chain handler bs2 m) bs1 msg := by
  induction bs1 with
  | nil => intro msg; rfl
  | cons b rest ih =>
      intro msg
      show b (fun m => call_chain handler (rest ++ bs2) m) msg
         = b (fun m => call_chain (fun mm => call_chain handler bs2 mm) rest m) msg
      have hcont : (fun m => call_chain handler (rest ++ bs2) m)
          = (fun m => call_chain (fun mm => call_chain handler bs2 mm) rest m) := by
        funext m
        exact ih m
      rw [hcont]

/-- A continuation-independent behavior makes the chain independent of
everything behind it: the terminal handler and all later behaviors are
unobservable (never invoked). -/
theorem call_chain_indep (b : Behavior)
    (hb : ∀ k k' mm, b k mm = b k' mm) (h h' : Handler)
    (pre post post' : List Behavior) :
    ∀ msg, call_chain h (pre ++ b :: post) msg
      = call_chain h' (pre ++ b :: post') msg := by
  induction pre with
  | nil =>
      intro msg
      show b (fun m => call_chain h post m) msg
         = b (fun m => call_chain h' post' m) msg
      exact hb _ _ msg
  | cons b0 rest ih =>
      intro msg
      show b0 (fun m => call_chain h (rest ++ b :: post) m) msg
         = b0 (fun m => call_chain h' (rest ++ b :: post') m) msg
      have hcont : (fun m => call_chain h (rest ++ b :: post) m)
          = (fun m => call_chain h' (rest ++ b :: post') m) := by
        funext m
        exact ih m
      rw [hcont]

/-- If the whole chain evaluates without an exception, dispatch sees
exactly the produced value. -/
theorem invoke_of_chain_ok (m : Mediator) (msg : Msg) (h : Handler) (v : PyVal)
    (hrun : call_chain h m.behaviors msg = Except.ok v) :
    m.invoke msg h = v := by
  unfold Mediator.invoke
  rw [hrun]

/-- If the chain raises, dispatch sees the converted failure Result. -/
theorem invoke_of_chain_error (m : Mediator) (msg : Msg) (h : Handler) (e : String)
    (hrun : call_chain h m.behaviors msg = Except.error e) :
    m.invoke msg h = Result.fail e := by
  unfold Mediator.invoke
  rw [hrun]

/-- C2: for a dispatch with behaviors b0..b(n-1) and handler h, the
pipeline is the onion composition: the empty chain invokes the handler
directly, a nonempty chain invokes its head behavior with a continuation
that recurses into the tail on whatever message is forwarded, the
composition is compositional over list append, `add_behavior` appends in
registration order, and a concrete dispatch through behaviors B1 then B2
observes B1.pre, B2.pre, handler, B2.post, B1.post — pre-steps in
registration order, post-steps unwinding in LIFO order. -/
theorem C2_pipeline_onion :
    (∀ (handler : Handler) (msg : Msg), call_chain handler [] msg = handler msg) ∧
    (∀ (handler : Handler) (b : Behavior) (bs : List Behavior) (msg : Msg),
        call_chain handler (b :: bs) msg
          = b (fun m => call_chain handler bs m) msg) ∧
    (∀ (handler : Handler) (bs1 bs2 : List Behavior) (msg : Msg),
        call_chain handler (bs1 ++ bs2) msg
          = call_chain (fun m => call_chain handler bs2 m) bs1 msg) ∧
    (∀ (m : Mediator) (b : Behavior),
        (m.add_behavior b).behaviors = m.behaviors ++ [b]) ∧
    traceMediator.send traceCmd
      = Result.ok (some (.list [.str "B1.pre", .str "B2.pre", .str "handler",
          .str "B2.post", .str "B1.post"])) :=
  ⟨fun _ _ => rfl, fun _ _ _ _ => rfl,
   fun handler bs1 bs2 msg => call_chain_append handler bs1 bs2 msg,
   fun _ _ => rfl, rfl⟩

/-- C3: when the pipeline completes without raising, a value that is
already a Result is returned unchanged (no double wrap) and any other
value is wrapped in `Result.ok`, for `send` and for `ask`. -/
theorem C3_result_normalization :
    (∀ (m : Mediator) (c : Msg) (h : Handler) (v : PyVal),
        m.command_handlers.get c.ty = some h →
        call_chain h m.behaviors c = Except.ok v →
        m.send c = (if isResult v then v else Result.ok (some v))) ∧
    (∀ (m : Mediator) (q : Msg) (h : Handler) (v : PyVal),
        m.query_handlers.get q.ty = some h →
        call_chain h m.behaviors q = Except.ok v →
        m.ask q = (if isResult v then v else Result.ok (some v))) := by
  constructor
  · intro m c h v hreg hrun
    simp only [Mediator.send, hreg, invoke_of_chain_ok m c h v hrun]
  · intro m q h v hreg hrun
    simp only [Mediator.ask, hreg, invoke_of_chain_ok m q h v hrun]

/-- Witness for C3 at a concrete input: a handler that explicitly
returns `Result.fail "NOT_FOUND"` has that exact Result passed through. -/
theorem C3_result_normalization_witness :
    notFoundMediator.ask getItemQuery
      = (if isResult (Result.fail "NOT_FOUND") then Result.fail "NOT_FOUND"
          else Result.ok (some (Result.fail "NOT_FOUND"))) :=
  C3_result_normalization.2 notFoundMediator getItemQuery notFoundHandler
    (Result.fail "NOT_FOUND") rfl rfl

/-- C4: a command whose runtime type has no registered handler yields
`Result.fail` naming that type, for any mediator state (hence for any
installed behaviors, none of which is consulted); symmetrically for
queries. -/
theorem C4_unregistered_fail :
    (∀ (m : Mediator) (c : Msg), m.command_handlers.get c.ty = none →
        m.send c = Result.fail ("No handler registered for command " ++ c.ty)) ∧
    (∀ (m : Mediator) (q : Msg), m.query_handlers.get q.ty = none →
        m.ask q = Result.fail ("No handler registered for query " ++ q.ty)) := by
  constructor
  · intro m c hreg
    simp only [Mediator.send, hreg]
  · intro m q hreg
    simp only [Mediator.ask, hreg]

/-- Witness for C4 at a concrete input: no handler is registered for
`DeleteItem`, and the failure message names the type. -/
theorem C4_unregistered_fail_witness :
    Mediator.init.send deleteItemCmd
      = Result.fail ("No handler registered for command " ++ deleteItemCmd.ty) :=
  C4_unregistered_fail.1 Mediator.init deleteItemCmd rfl

/-- C5: when the pipeline raises an exception whose text is e — in
particular when the registered synchronous handler raises — `send` and
`ask` return `Result.fail e` instead of propagating the exception. -/
theorem C5_exception_contained :
    (∀ (m : Mediator) (c : Msg) (h : Handler) (e : String),
        m.command_handlers.get c.ty = some h →
        call_chain h m.behaviors c = Except.error e →
        m.send c = Result.fail e) ∧
    (∀ (m : Mediator) (q : Msg) (h : Handler) (e : String),
        m.query_handlers.get q.ty = some h →
        call_chain h m.behaviors q = Except.error e →
        m.ask q = Result.fail e) := by
  constructor
  · intro m c h e hreg hrun
    simp only [Mediator.send, hreg, invoke_of_chain_error m c h e hrun]
    rfl
  · intro m q h e hreg hrun
    simp only [Mediator.ask, hreg, invoke_of_chain_error m q h e hrun]
    rfl

/-- Witness for C5 at a concrete input: a handler that always raises an
exception with text "kaput" produces `Result.fail "kaput"`. -/
theorem C5_exception_contained_witness :
    raisingMediator.send explodeCmd = Result.fail "kaput" :=
  C5_exception_contained.1 raisingMediator explodeCmd raisingHandler "kaput"
    rfl rfl

/-- C6: a behavior that ignores its continuation (returns without
invoking it) makes the chain independent of the terminal handler and of
every behavior after it — they are never invoked — and the dispatch
result is that behavior's own value, wrapped in `Result.ok` unless it is
already a Result. -/
theorem C6_short_circuit :
    (∀ b : Behavior,
        (∀ k k' mm, b k mm = b k' mm) →
        ∀ (h h' : Handler) (pre post post' : List Behavior) (msg : Msg),
          call_chain h (pre ++ b :: post) msg
            = call_chain h' (pre ++ b :: post') msg) ∧
    (∀ (m : Mediator) (c : Msg) (b : Behavior) (post : List Behavior)
        (h : Handler) (v : PyVal),
        (∀ k k' mm, b k mm = b k' mm) →
        m.behaviors = b :: post →
        m.command_handlers.get c.ty = some h →
        b (fun mm => Except.ok mm.payload) c = Except.ok v →
        m.send c = (if isResult v then v else Result.ok (some v))) := by
  constructor
  · intro b hb h h' pre post post' msg
    exact call_chain_indep b hb h h' pre post post' msg
  · intro m c b post h v hb hbeh hreg hval
    have hchain : call_chain h m.behaviors c = Except.ok v := by
      rw [hbeh]
      show b (fun m2 => call_chain h post m2) c = Except.ok v
      rw [hb (fun m2 => call_chain h post m2) (fun mm => Except.ok mm.payload) c]
      exact hval
    simp only [Mediator.send, hreg, invoke_of_chain_ok m c h v hchain]

/-- Witness for C6 at a concrete input: a behavior returning the plain
value 7 without calling its continuation makes the dispatch return
`Ok(7)`; the registered handler (which would return 99) is never run. -/
theorem C6_short_circuit_witness :
    scMediator.send scCmd
      = (if isResult (PyVal.nat 7) then PyVal.nat 7
          else Result.ok (some (PyVal.nat 7))) :=
  C6_short_circuit.2 scMediator scCmd shortCircuitBehavior [] scHandler
    (PyVal.nat 7) (fun _ _ _ => rfl) rfl rfl rfl

/-- C7: registering a second handler for an already-bound type replaces
the first without error: the doubly-registered mediator state is equal,
as a whole, to the state where only the second handler was ever
registered (so every subsequent dispatch uses the second handler and can
never reach the first), and the binding for the type is the second
handler. -/
theorem C7_last_write_wins :
    (∀ (m : Mediator) (t : String) (h1 h2 : Handler),
        (m.register_command t h1).register_command t h2
          = m.register_command t h2) ∧
    (∀ (m : Mediator) (t : String) (h1 h2 : Handler),
        (m.register_query t h1).register_query t h2
          = m.register_query t h2) ∧
    (∀ (m : Mediator) (t : String) (h1 h2 : Handler),
        ((m.register_command t h1).register_command t h2).command_handlers.get t
          = some h2) ∧
    (∀ (m : Mediator) (t : String) (h1 h2 : Handler),
        ((m.register_query t h1).register_query t h2).query_handlers.get t
          = some h2) := by
  refine ⟨?_, ?_, ?_, ?_⟩
  · intro m t h1 h2
    simp only [Mediator.register_command]
    rw [dict_set_set]
  · intro m t h1 h2
    simp only [Mediator.register_query]
    rw [dict_set_set]
  · intro m t h1 h2
    simp only [Mediator.register_command]
    rw [dict_set_set, dict_get_set_self]
  · intro m t h1 h2
    simp only [Mediator.register_query]
    rw [dict_set_set, dict_get_set_self]

/-- The Result-or-wrap normalization step always yields a Result value. -/
theorem wrap_isResult (v : PyVal) :
    isResult (if isResult v then v else Result.ok (some v)) = true := by
  cases hres : isResult v with
  | true => simp [hres]
  | false => simp [hres, Result.ok, isResult]

/-- C1 as stated is false: an exception can escape `send_async`. With a
registered handler whose returned coroutine raises when awaited, the
`await` sits outside the try/except of `_invoke`, so `send_async`
propagates the exception instead of returning a Fail Result. -/
theorem C1_counterexample :
    asyncFailMediator.send_async createItemCmd = Except.error "boom" := rfl

/-- C1 amended: no exception escapes the synchronous entry points —
`send` and `ask` always return a Result value — and the asynchronous
entry points return a Result value on every path except when the
pipeline hands back a pending computation that raises when awaited (that
exception escapes): with a registered handler, `send_async`/`ask_async`
return `Except.ok` of a Result whenever the pipeline value is not a
raising coroutine, and with no registered handler they return the
no-handler Fail without raising. -/
theorem C1_amended_containment :
    (∀ (m : Mediator) (c : Msg), isResult (m.send c) = true) ∧
    (∀ (m : Mediator) (q : Msg), isResult (m.ask q) = true) ∧
    (∀ (m : Mediator) (c : Msg) (h : Handler),
        m.command_handlers.get c.ty = some h →
        (∀ e, m.invoke c h ≠ PyVal.coroErr e) →
        ∃ r, m.send_async c = Except.ok r ∧ isResult r = true) ∧
    (∀ (m : Mediator) (c : Msg), m.command_handlers.get c.ty = none →
        m.send_async c
          = Except.ok (Result.fail ("No handler registered for command " ++ c.ty))) ∧
    (∀ (m : Mediator) (q : Msg) (h : Handler),
        m.query_handlers.get q.ty = some h →
        (∀ e, m.invoke q h ≠ PyVal.coroErr e) →
        ∃ r, m.ask_async q = Except.ok r ∧ isResult r = true) ∧
    (∀ (m : Mediator) (q : Msg), m.query_handlers.get q.ty = none →
        m.ask_async q
          = Except.ok (Result.fail ("No handler registered for query " ++ q.ty))) := by
  refine ⟨?_, ?_, ?_, ?_, ?_, ?_⟩
  · intro m c
    cases hg : m.command_handlers.get c.ty with
    | none => simp [Mediator.send, hg, Result.fail, isResult]
    | some h =>
        simp only [Mediator.send, hg]
        exact wrap_isResult _
  · intro m q
    cases hg : m.query_handlers.get q.ty with
    | none => simp [Mediator.ask, hg, Result.fail, isResult]
    | some h =>
        simp only [Mediator.ask, hg]
        exact wrap_isResult _
  · intro m c h hreg hnc
    cases hv : m.invoke c h with
    | coroErr e => exact absurd hv (hnc e)
    | coroOk v =>
        refine ⟨if isResult v then v else Result.ok (some v), ?_, wrap_isResult v⟩
        simp [Mediator.send_async, hreg, hv, awaitIfCoro]
    | res s vv ee =>
        refine ⟨_, ?_, wrap_isResult (PyVal.res s vv ee)⟩
        simp [Mediator.send_async, hreg, hv, awaitIfCoro]
    | nat n =>
        refine ⟨_, ?_, wrap_isResult (PyVal.nat n)⟩
        simp [Mediator.send_async, hreg, hv, awaitIfCoro]
    | str s =>
        refine ⟨_, ?_, wrap_isResult (PyVal.str s)⟩
        simp [Mediator.send_async, hreg, hv, awaitIfCoro]
    | list xs =>
        refine ⟨_, ?_, wrap_isResult (PyVal.list xs)⟩
        simp [Mediator.send_async, hreg, hv, awaitIfCoro]
  · intro m c hreg
    simp [Mediator.send_async, hreg]
  · intro m q h hreg hnc
    cases hv : m.invoke q h with
    | coroErr e => exact absurd hv (hnc e)
    | coroOk v =>
        refine ⟨if isResult v then v else Result.ok (some v), ?_, wrap_isResult v⟩
        simp [Mediator.ask_async, hreg, hv, awaitIfCoro]
    | res s vv ee =>
        refine ⟨_, ?_, wrap_isResult (PyVal.res s vv ee)⟩
        simp [Mediator.ask_async, hreg, hv, awaitIfCoro]
    | nat n =>
        refine ⟨_, ?_, wrap_isResult (PyVal.nat n)⟩
        simp [Mediator.ask_async, hreg, hv, awaitIfCoro]
    | str s =>
        refine ⟨_, ?_, wrap_isResult (PyVal.str s)⟩
        simp [Mediator.ask_async, hreg, hv, awaitIfCoro]
    | list xs =>
        refine ⟨_, ?_, wrap_isResult (PyVal.list xs)⟩
        simp [Mediator.ask_async, hreg, hv, awaitIfCoro]
  · intro m q hreg
    simp [Mediator.ask_async, hreg]

/-- Witness for the amended C1 at a concrete input: a registered plain
synchronous handler makes `send_async` return an ok Result. -/
theorem C1_amended_containment_witness :
    ∃ r, plainMediator.send_async makeItemCmd = Except.ok r ∧ isResult r = true :=
  C1_amended_containment.2.2.1 plainMediator makeItemCmd plainHandler rfl
    (fun _ h => PyVal.noConfusion h)

/-- C8: whenever no pipeline stage produces a pending computation (the
value reaching the await point is not a coroutine), `send_async` yields
exactly the Result `send` yields, and `ask_async` agrees with `ask`. -/
theorem C8_async_sync_parity :
    (∀ (m : Mediator) (c : Msg),
        (∀ h, m.command_handlers.get c.ty = some h →
            isCoroutine (m.invoke c h) = false) →
        m.send_async c = Except.ok (m.send c)) ∧
    (∀ (m : Mediator) (q : Msg),
        (∀ h, m.query_handlers.get q.ty = some h →
            isCoroutine (m.invoke q h) = false) →
        m.ask_async q = Except.ok (m.ask q)) := by
  constructor
  · intro m c hnc
    cases hg : m.command_handlers.get c.ty with
    | none => simp [Mediator.send_async, Mediator.send, hg]
    | some h =>
        have hcoro := hnc h hg
        cases hv : m.invoke c h with
        | coroOk v => rw [hv] at hcoro; simp [isCoroutine] at hcoro
        | coroErr e => rw [hv] at hcoro; simp [isCoroutine] at hcoro
        | res s vv ee => simp [Mediator.send_async, Mediator.send, hg, hv, awaitIfCoro]
        | nat n => simp [Mediator.send_async, Mediator.send, hg, hv, awaitIfCoro]
        | str s => simp [Mediator.send_async, Mediator.send, hg, hv, awaitIfCoro]
        | list xs => simp [Mediator.send_async, Mediator.send, hg, hv, awaitIfCoro]
  · intro m q hnc
    cases hg : m.query_handlers.get q.ty with
    | none => simp [Mediator.ask_async, Mediator.ask, hg]
    | some h =>
        have hcoro := hnc h hg
        cases hv : m.invoke q h with
        | coroOk v => rw [hv] at hcoro; simp [isCoroutine] at hcoro
        | coroErr e => rw [hv] at hcoro; simp [isCoroutine] at hcoro
        | res s vv ee => simp [Mediator.ask_async, Mediator.ask, hg, hv, awaitIfCoro]
        | nat n => simp [Mediator.ask_async, Mediator.ask, hg, hv, awaitIfCoro]
        | str s => simp [Mediator.ask_async, Mediator.ask, hg, hv, awaitIfCoro]
        | list xs => simp [Mediator.ask_async, Mediator.ask, hg, hv, awaitIfCoro]

/-- Witness for C8 at a concrete input: a synchronous handler returning
the plain value 5 gives identical Results on both entry points. -/
theorem C8_async_sync_parity_witness :
    plainMediator.send_async makeItemCmd
      = Except.ok (plainMediator.send makeItemCmd) :=
  C8_async_sync_parity.1 plainMediator makeItemCmd
    (fun h hh => by
      have hsome : some plainHandler = some h := hh
      injection hsome with e
      subst e
      rfl)

/-- C9 as stated is false: the dataclass constructor is part of the
public interface and permits a partially populated Result, and dispatch
passes such a Result through unchanged — here a success Result carrying
both a value and the error string "weird" is returned by `send`. -/
theorem C9_counterexample :
    malformedMediator.send malCmd
        = PyVal.res true (some (PyVal.nat 1)) (some "weird") ∧
      isWellFormed (malformedMediator.send malCmd) = false :=
  ⟨rfl, rfl⟩

/-- C9 amended: every Result built by the `ok` and `fail` classmethods
is in exactly one state — `fail` carries no value and `ok` carries no
error string — and every Result a dispatch returns is well-formed
provided the pipeline only ever produces well-formed Results (the raw
dataclass constructor, which dispatch passes through unchanged, can
still produce partially populated values). -/
theorem C9_amended_invariant :
    (∀ v, isWellFormed (Result.ok v) = true) ∧
    (∀ e, isWellFormed (Result.fail e) = true) ∧
    (∀ (m : Mediator) (c : Msg), m.command_handlers.get c.ty = none →
        isWellFormed (m.send c) = true) ∧
    (∀ (m : Mediator) (c : Msg) (h : Handler),
        m.command_handlers.get c.ty = some h →
        (∀ v, call_chain h m.behaviors c = Except.ok v → isResult v = true →
            isWellFormed v = true) →
        isWellFormed (m.send c) = true) ∧
    (∀ (m : Mediator) (q : Msg), m.query_handlers.get q.ty = none →
        isWellFormed (m.ask q) = true) ∧
    (∀ (m : Mediator) (q : Msg) (h : Handler),
        m.query_handlers.get q.ty = some h →
        (∀ v, call_chain h m.behaviors q = Except.ok v → isResult v = true →
            isWellFormed v = true) →
        isWellFormed (m.ask q) = true) := by
  refine ⟨fun v => rfl, fun e => rfl, ?_, ?_, ?_, ?_⟩
  · intro m c hreg
    simp [Mediator.send, hreg, Result.fail, isWellFormed]
  · intro m c h hreg hwf
    cases hrun : call_chain h m.behaviors c with
    | error e =>
        simp [Mediator.send, hreg, invoke_of_chain_error m c h e hrun,
          Result.fail, isResult, isWellFormed]
    | ok v =>
        have hinv := invoke_of_chain_ok m c h v hrun
        cases hres : isResult v with
        | true => simp [Mediator.send, hreg, hinv, hres, hwf v hrun hres]
        | false => simp [Mediator.send, hreg, hinv, hres, Result.ok, isWellFormed]
  · intro m q hreg
    simp [Mediator.ask, hreg, Result.fail, isWellFormed]
  · intro m q h hreg hwf
    cases hrun : call_chain h m.behaviors q with
    | error e =>
        simp [Mediator.ask, hreg, invoke_of_chain_error m q h e hrun,
          Result.fail, isResult, isWellFormed]
    | ok v =>
        have hinv := invoke_of_chain_ok m q h v hrun
        cases hres : isResult v with
        | true => simp [Mediator.ask, hreg, hinv, hres, hwf v hrun hres]
        | false => simp [Mediator.ask, hreg, hinv, hres, Result.ok, isWellFormed]

/-- Witness for the amended C9 at a concrete input: a handler returning
an explicit well-formed ok Result yields a well-formed dispatch result. -/
theorem C9_amended_invariant_witness :
    isWellFormed (wfMediator.send wfCmd) = true :=
  C9_amended_invariant.2.2.2.1 wfMediator wfCmd wfHandler rfl
    (fun v hv _ => by
      have hsome : (Except.ok (Result.ok (some (PyVal.nat 5))) :
          Except String PyVal) = Except.ok v := hv
      injection hsome with e
      subst e
      rfl)

/-- C10: dispatch never changes the mediator state and the two
registries are independent: the state-passing renderings of `send`,
`ask`, `send_async` and `ask_async` return the input state unchanged on
every path while producing the same value as the pure renderings; `send`
reads only the command registry and the behavior list and `ask` only the
query registry and the behavior list; `register_command` changes only the
command registry's binding for its argument type, `register_query` only
the query registry's binding for its argument type, and `add_behavior`
only appends to the behavior list. -/
theorem C10_frame_and_purity :
    (∀ (m : Mediator) (c : Msg), m.send_st c = (m.send c, m)) ∧
    (∀ (m : Mediator) (q : Msg), m.ask_st q = (m.ask q, m)) ∧
    (∀ (m : Mediator) (c : Msg), m.send_async_st c = (m.send_async c, m)) ∧
    (∀ (m : Mediator) (q : Msg), m.ask_async_st q = (m.ask_async q, m)) ∧
    (∀ (m1 m2 : Mediator) (c : Msg),
        m1.command_handlers = m2.command_handlers → m1.behaviors = m2.behaviors →
        m1.send c = m2.send c) ∧
    (∀ (m1 m2 : Mediator) (q : Msg),
        m1.query_handlers = m2.query_handlers → m1.behaviors = m2.behaviors →
        m1.ask q = m2.ask q) ∧
    (∀ (m : Mediator) (t : String) (h : Handler),
        (m.register_command t h).query_handlers = m.query_handlers ∧
        (m.register_command t h).behaviors = m.behaviors ∧
        (m.register_command t h).command_handlers.get t = some h ∧
        ∀ k, k ≠ t → (m.register_command t h).command_handlers.get k
            = m.command_handlers.get k) ∧
    (∀ (m : Mediator) (t : String) (h : Handler),
        (m.register_query t h).command_handlers = m.command_handlers ∧
        (m.register_query t h).behaviors = m.behaviors ∧
        (m.register_query t h).query_handlers.get t = some h ∧
        ∀ k, k ≠ t → (m.register_query t h).query_handlers.get k
            = m.query_handlers.get k) ∧
    (∀ (m : Mediator) (b : Behavior),
        (m.add_behavior b).command_handlers = m.command_handlers ∧
        (m.add_behavior b).query_handlers = m.query_handlers ∧
        (m.add_behavior b).behaviors = m.behaviors ++ [b]) := by
  refine ⟨?_, ?_, ?_, ?_, ?_, ?_, ?_, ?_, ?_⟩
  · intro m c
    cases hg : m.command_handlers.get c.ty with
    | none => simp [Mediator.send_st, Mediator.send, hg]
    | some h => simp [Mediator.send_st, Mediator.send, hg]
  · intro m q
    cases hg : m.query_handlers.get q.ty with
    | none => simp [Mediator.ask_st, Mediator.ask, hg]
    | some h => simp [Mediator.ask_st, Mediator.ask, hg]
  · intro m c
    cases hg : m.command_handlers.get c.ty with
    | none => simp [Mediator.send_async_st, Mediator.send_async, hg]
    | some h =>
        cases ha : awaitIfCoro (m.invoke c h) with
        | error e => simp [Mediator.send_async_st, Mediator.send_async, hg, ha]
        | ok res => simp [Mediator.send_async_st, Mediator.send_async, hg, ha]
  · intro m q
    cases hg : m.query_handlers.get q.ty with
    | none => simp [Mediator.ask_async_st, Mediator.ask_async, hg]
    | some h =>
        cases ha : awaitIfCoro (m.invoke q h) with
        | error e => simp [Mediator.ask_async_st, Mediator.ask_async, hg, ha]
        | ok res => simp [Mediator.ask_async_st, Mediator.ask_async, hg, ha]
  · intro m1 m2 c h1 h2
    simp only [Mediator.send, Mediator.invoke, h1, h2]
  · intro m1 m2 q h1 h2
    simp only [Mediator.ask, Mediator.invoke, h1, h2]
  · intro m t h
    refine ⟨rfl, rfl, ?_, ?_⟩
    · exact dict_get_set_self t h m.command_handlers
    · intro k hk
      exact dict_get_set_ne k t h hk m.command_handlers
  · intro m t h
    refine ⟨rfl, rfl, ?_, ?_⟩
    · exact dict_get_set_self t h m.query_handlers
    · intro k hk
      exact dict_get_set_ne k t h hk m.query_handlers
  · intro m b
    exact ⟨rfl, rfl, rfl⟩

/-- Witness for C10 at a concrete input: registering a handler for type
A leaves the lookup of the unrelated type B unchanged. -/
theorem C10_frame_and_purity_witness :
    (Mediator.init.register_command "A" plainHandler).command_handlers.get "B"
      = Mediator.init.command_handlers.get "B" :=
  (C10_frame_and_purity.2.2.2.2.2.2.1 Mediator.init "A" plainHandler).2.2.2 "B"
    (by decide)

end Cqrs

